import Mathlib

/-!
Verification of the dispatch-and-merge orchestrator in `src/main.py` of the
Jora/Seek job crawler.

The embedding models:
  * a Python dict (one job record) as an insertion-ordered association list
    `List (Field × String)`;
  * a pandas `DataFrame` built from a list of dicts: the columns are the keys
    in first-occurrence order across records, and a cell is `Option String`
    (`none` standing for pandas `NaN` when a record lacks the key);
  * `df[col] = 'N/A'` (whole-column assignment) as appending a column whose
    cells are all `some "N/A"`;
  * `df[column_order]` as a column projection;
  * `df['source'].value_counts()` as per-value counts over the non-missing
    (non-`NaN`) cells of the column, mirroring pandas' default `dropna=True`;
  * `scrape_portal` with the crawler call abstracted into an outcome: the
    call returns a list, returns `None`, or raises.
-/

namespace JobCrawler

abbrev Field := String

/-- One raw job record: a Python dict, i.e. an insertion-ordered association
list from field name to string value. -/
abbrev Record := List (Field × String)

/-- One table cell; `none` models pandas `NaN` (the key was absent when the
frame was built from the raw dicts). -/
abbrev Cell := Option String

/-- One materialised table row: field name paired with its cell, in column
order. -/
abbrev Row := List (Field × Cell)

/-- A pandas DataFrame: a column list plus one row per input record. -/
structure DataFrame where
  columns : List Field
  rows : List Row
deriving Repr, DecidableEq

/-- Append a field to an accumulator unless already present; folding this
yields first-occurrence order, as pandas uses for columns of a frame built
from a list of dicts. -/
def insertIfAbsent (acc : List Field) (f : Field) : List Field :=
  if f ∈ acc then acc else acc ++ [f]

/-- The keys of a record, in insertion order. -/
def recordFields (r : Record) : List Field :=
  r.map Prod.fst

/-- Columns of `pd.DataFrame(records)`: union of the records' keys in
first-occurrence order. -/
def observedCols (records : List Record) : List Field :=
  records.foldl (fun acc r => (recordFields r).foldl insertIfAbsent acc) []

/-- The row a record contributes: one cell per column, `none` (NaN) where the
record lacks the key. -/
def mkRow (cols : List Field) (r : Record) : Row :=
  cols.map (fun c => (c, r.lookup c))

/-- `pd.DataFrame(all_jobs_data)` (src/main.py line 75). -/
def mkDataFrame (records : List Record) : DataFrame :=
  ⟨observedCols records, records.map (mkRow (observedCols records))⟩

/-- `df[col] = 'N/A'` on a column not yet present: appends the column with
every cell set to the scalar. -/
def addColumn (df : DataFrame) (c : Field) (v : String) : DataFrame :=
  ⟨df.columns ++ [c], df.rows.map (fun row => row ++ [(c, some v)])⟩

/-- `required_columns` (src/main.py line 78). -/
def requiredColumns : List Field :=
  ["title", "company", "location", "salary", "description", "job_url", "source"]

/-- One iteration of the loop at src/main.py lines 79-81: add the column
filled with "N/A" only when it is absent from `df.columns`. -/
def ensureStep (df : DataFrame) (c : Field) : DataFrame :=
  if c ∈ df.columns then df else addColumn df c "N/A"

/-- The whole required-columns loop (src/main.py lines 79-81). -/
def ensureColumns (df : DataFrame) : DataFrame :=
  requiredColumns.foldl ensureStep df

/-- Value of `row[c]` in a projected frame: `none` both for a NaN cell and a
missing column (the latter never occurs in the pipeline's uses). -/
def rowCell (row : Row) (c : Field) : Cell :=
  (row.lookup c).join

/-- `df[cols]`: project the frame onto the given columns. -/
def selectColumns (df : DataFrame) (cols : List Field) : DataFrame :=
  ⟨cols, df.rows.map (fun row => cols.map (fun c => (c, rowCell row c)))⟩

/-- src/main.py lines 83-85: `['source'] + [col for col in df.columns if col
!= 'source']`, then the projection. -/
def reorderSourceFirst (df : DataFrame) : DataFrame :=
  selectColumns df ("source" :: df.columns.filter (fun c => decide (c ≠ "source")))

/-- The whole merge step of `main` (src/main.py lines 75-85): build the frame,
ensure required columns, put `source` first. -/
def consolidate (records : List Record) : DataFrame :=
  reorderSourceFirst (ensureColumns (mkDataFrame records))

/-- The cells of one column, top to bottom. -/
def columnValues (df : DataFrame) (c : Field) : List Cell :=
  df.rows.map (fun row => rowCell row c)

/-- `df[c].value_counts()` (src/main.py line 97): counts of each distinct
non-NaN value of the column.  pandas orders by descending count; only the
key/count multiset matters to the claims, so first-seen key order is used. -/
def value_counts (df : DataFrame) (c : Field) : List (String × Nat) :=
  let vals := (columnValues df c).filterMap id
  (vals.foldl insertIfAbsent []).map (fun k => (k, vals.count k))

/-- Outcome of `crawler.scrape_jobs(max_pages=...)` as observed by
`scrape_portal`: a returned list, a returned `None`, or a raised exception
carrying a message. -/
inductive ProduceOutcome where
  | ok (jobs : List Record)
  | noneValue
  | err (msg : String)
deriving Repr, DecidableEq

/-- `scrape_portal` (src/main.py lines 15-30): result list plus diagnostics.
A nonempty result is passed through; a falsy result (`None` or `[]`) becomes
`[]` with a "failed or returned no data" line; an exception is caught and
becomes `[]` with an "Error during ..." line.  It never re-raises. -/
def scrape_portal (outcome : ProduceOutcome) (portal_name : String) :
    List Record × List String :=
  match outcome with
  | .ok jobs =>
    if jobs.isEmpty then
      ([], [" " ++ portal_name ++ " scraping failed or returned no data"])
    else
      (jobs, [portal_name ++ " scraping completed successfully. Jobs collected: "
                ++ toString jobs.length])
  | .noneValue => ([], [" " ++ portal_name ++ " scraping failed or returned no data"])
  | .err e => ([], ["Error during " ++ portal_name ++ " scraping: " ++ e])

/-- The per-future results in completion order (src/main.py lines 54-60):
both submitted tasks are settled before the list is returned; `joraFirst`
records which future `as_completed` yields first. -/
def dispatchAll (joraOut seekOut : ProduceOutcome) (joraFirst : Bool) :
    List (List Record) :=
  let jora := (scrape_portal joraOut "Jora").1
  let seek := (scrape_portal seekOut "Seek").1
  if joraFirst then [jora, seek] else [seek, jora]

/-- The collection loop (src/main.py lines 60-64): `all_jobs_data.extend(jobs)`
guarded by `if jobs:`. -/
def collectJobs (results : List (List Record)) : List Record :=
  results.foldl (fun acc jobs => if jobs.isEmpty then acc else acc ++ jobs) []

/-- `all_jobs_data` at src/main.py line 67, as a function of the two producer
outcomes and the completion order. -/
def allJobsData (joraOut seekOut : ProduceOutcome) (joraFirst : Bool) : List Record :=
  collectJobs (dispatchAll joraOut seekOut joraFirst)

/-- Externally visible result of one run: the written artifact if any, the
per-source summary, and the console diagnostics the claims mention. -/
structure RunOutput where
  artifact : Option DataFrame
  summary : List (String × Nat)
  messages : List String
deriving Repr, DecidableEq

/-- `main` (src/main.py lines 33-110) given the two producer outcomes and the
future completion order: if no data was collected nothing is written and the
no-data message is printed; otherwise the consolidated frame is written and
the per-source summary computed over it. -/
def runMain (joraOut seekOut : ProduceOutcome) (joraFirst : Bool) : RunOutput :=
  let diags := (scrape_portal joraOut "Jora").2 ++ (scrape_portal seekOut "Seek").2
  let data := allJobsData joraOut seekOut joraFirst
  if data.isEmpty then
    ⟨none, [], diags ++ ["No job data was collected from either portal."]⟩
  else
    let df := consolidate data
    ⟨some df, value_counts df "source",
      diags ++ ["Combined data saved to: job_lists.csv",
                "Total jobs collected: " ++ toString data.length]⟩

/-- Number of rows of the written artifact (0 when none was written). -/
def rowCount (out : RunOutput) : Nat :=
  match out.artifact with
  | none => 0
  | some df => df.rows.length

/-- Sum of the per-source counts of a printed summary. -/
def sumCounts (summary : List (String × Nat)) : Nat :=
  (summary.map Prod.snd).sum

/-- Cell of row `i` at column `c`: `none` when the row or the column is
missing, otherwise `some` the cell (which is itself `none` for NaN). -/
def cellAt (df : DataFrame) (i : Nat) (c : Field) : Option Cell :=
  df.rows[i]?.bind (fun row => row.lookup c)

/-! ### Association-list lookup lemmas -/

theorem lookup_append_left {α β : Type} [BEq α] {l₁ l₂ : List (α × β)} {f : α} {v : β}
    (h : l₁.lookup f = some v) : (l₁ ++ l₂).lookup f = some v := by
  induction l₁ with
  | nil => simp [List.lookup] at h
  | cons p t ih =>
    obtain ⟨k, w⟩ := p
    rw [List.cons_append]
    rw [List.lookup_cons] at h ⊢
    cases hk : (f == k) with
    | true => rw [hk] at h; simpa using h
    | false => rw [hk] at h; exact ih h

theorem lookup_append_right {α β : Type} [BEq α] {l₁ : List (α × β)} (l₂ : List (α × β))
    {f : α} (h : l₁.lookup f = none) : (l₁ ++ l₂).lookup f = l₂.lookup f := by
  induction l₁ with
  | nil => simp
  | cons p t ih =>
    obtain ⟨k, w⟩ := p
    rw [List.cons_append]
    rw [List.lookup_cons] at h ⊢
    cases hk : (f == k) with
    | true => rw [hk] at h; simp at h
    | false => rw [hk] at h; exact ih h

/-- Looking a field up in a row built as `cols.map (fun c => (c, g c))` yields
`g f` whenever `f` is among the columns. -/
theorem lookup_map_fn {g : Field → Cell} {cols : List Field} {f : Field}
    (h : f ∈ cols) : (cols.map (fun c => (c, g c))).lookup f = some (g f) := by
  induction cols with
  | nil => cases h
  | cons c t ih =>
    rw [List.map_cons, List.lookup_cons]
    by_cases hc : f = c
    · subst hc
      simp
    · have ht : f ∈ t := by
        cases List.mem_cons.mp h with
        | inl h' => exact absurd h' hc
        | inr h' => exact h'
      have hk : (f == c) = false := by simp [hc]
      rw [hk]
      exact ih ht

/-- Looking a field up in such a row yields `none` when the field is not among
the columns. -/
theorem lookup_map_fn_none {g : Field → Cell} {cols : List Field} {f : Field}
    (h : f ∉ cols) : (cols.map (fun c => (c, g c))).lookup f = none := by
  induction cols with
  | nil => rfl
  | cons c t ih =>
    have hc : f ≠ c := fun h' => h (h' ▸ List.mem_cons_self c t)
    have ht : f ∉ t := fun h' => h (List.mem_cons_of_mem c h')
    rw [List.map_cons, List.lookup_cons]
    have hk : (f == c) = false := by simp [hc]
    rw [hk]
    exact ih ht

/-- A dict lookup is `none` exactly when the field is not among the record's
keys. -/
theorem lookup_eq_none_iff {r : Record} {f : Field} :
    r.lookup f = none ↔ f ∉ recordFields r := by
  induction r with
  | nil => simp [List.lookup, recordFields]
  | cons p t ih =>
    obtain ⟨k, w⟩ := p
    rw [List.lookup_cons]
    by_cases hk : f = k
    · subst hk
      simp [recordFields]
    · have hb : (f == k) = false := by simp [hk]
      rw [hb]
      have hmem : f ∈ recordFields ((k, w) :: t) ↔ f ∈ recordFields t := by
        simp [recordFields, hk]
      constructor
      · intro h hc
        exact ih.mp h (hmem.mp hc)
      · intro h
        exact ih.mpr (fun hc => h (hmem.mpr hc))

/-! ### First-occurrence column accumulation -/

theorem mem_foldl_insertIfAbsent {l acc : List Field} {x : Field} :
    x ∈ l.foldl insertIfAbsent acc ↔ x ∈ acc ∨ x ∈ l := by
  induction l generalizing acc with
  | nil => simp
  | cons a t ih =>
    rw [List.foldl_cons, ih]
    unfold insertIfAbsent
    by_cases ha : a ∈ acc
    · simp only [if_pos ha, List.mem_cons]
      constructor
      · rintro (h | h)
        · exact Or.inl h
        · exact Or.inr (Or.inr h)
      · rintro (h | h | h)
        · exact Or.inl h
        · exact Or.inl (h ▸ ha)
        · exact Or.inr h
    · simp only [if_neg ha, List.mem_append, List.mem_singleton, List.mem_cons]
      tauto

theorem nodup_foldl_insertIfAbsent {l acc : List Field} (h : acc.Nodup) :
    (l.foldl insertIfAbsent acc).Nodup := by
  induction l generalizing acc with
  | nil => exact h
  | cons a t ih =>
    rw [List.foldl_cons]
    apply ih
    unfold insertIfAbsent
    by_cases ha : a ∈ acc
    · simpa [ha] using h
    · simp [ha, List.nodup_append, h]

theorem mem_observedCols {records : List Record} {f : Field} :
    f ∈ observedCols records ↔ ∃ r ∈ records, f ∈ recordFields r := by
  unfold observedCols
  suffices h : ∀ (acc : List Field),
      f ∈ records.foldl (fun acc r => (recordFields r).foldl insertIfAbsent acc) acc ↔
        f ∈ acc ∨ ∃ r ∈ records, f ∈ recordFields r by
    simpa using h []
  induction records with
  | nil => simp
  | cons r t ih =>
    intro acc
    rw [List.foldl_cons, ih, mem_foldl_insertIfAbsent]
    constructor
    · rintro ((h | h) | h)
      · exact Or.inl h
      · exact Or.inr ⟨r, List.mem_cons_self r t, h⟩
      · obtain ⟨r', hr', hf⟩ := h
        exact Or.inr ⟨r', List.mem_cons_of_mem r hr', hf⟩
    · rintro (h | ⟨r', hr', hf⟩)
      · exact Or.inl (Or.inl h)
      · cases List.mem_cons.mp hr' with
        | inl h' => exact Or.inl (Or.inr (h' ▸ hf))
        | inr h' => exact Or.inr ⟨r', h', hf⟩

/-! ### Row-count preservation through the pipeline -/

theorem rows_length_foldl_ensureStep (L : List Field) (df : DataFrame) :
    (L.foldl ensureStep df).rows.length = df.rows.length := by
  induction L generalizing df with
  | nil => rfl
  | cons c t ih =>
    rw [List.foldl_cons]
    rw [ih]
    unfold ensureStep
    by_cases h : c ∈ df.columns
    · simp [h]
    · simp [h, addColumn]

theorem rows_length_consolidate (records : List Record) :
    (consolidate records).rows.length = records.length := by
  unfold consolidate reorderSourceFirst selectColumns ensureColumns
  simp [rows_length_foldl_ensureStep, mkDataFrame]

/-! ### Characterisation of the required-columns loop (src/main.py lines 79-81) -/

theorem columns_foldl_ensure (L : List Field) (df : DataFrame) (hnd : L.Nodup) :
    (L.foldl ensureStep df).columns =
      df.columns ++ L.filter (fun c => decide (c ∉ df.columns)) := by
  induction L generalizing df with
  | nil => simp
  | cons c t ih =>
    have hnd' : t.Nodup := (List.nodup_cons.mp hnd).2
    have hct : c ∉ t := (List.nodup_cons.mp hnd).1
    rw [List.foldl_cons, List.filter_cons]
    by_cases h : c ∈ df.columns
    · have hstep : ensureStep df c = df := by simp [ensureStep, h]
      rw [hstep, ih df hnd']
      simp [h]
    · have hstep : ensureStep df c = addColumn df c "N/A" := by simp [ensureStep, h]
      rw [hstep, ih (addColumn df c "N/A") hnd']
      have hcols : (addColumn df c "N/A").columns = df.columns ++ [c] := rfl
      have hfilter : t.filter (fun x => decide (x ∉ (addColumn df c "N/A").columns)) =
          t.filter (fun x => decide (x ∉ df.columns)) := by
        apply List.filter_congr
        intro x hx
        have hxc : x ≠ c := fun e => hct (e ▸ hx)
        simp [hcols, List.mem_append, hxc]
      rw [hfilter, hcols]
      simp [h, List.append_assoc]

theorem rows_foldl_ensure (L : List Field) (df : DataFrame) (hnd : L.Nodup) :
    (L.foldl ensureStep df).rows =
      df.rows.map (fun row =>
        row ++ (L.filter (fun c => decide (c ∉ df.columns))).map
          (fun c => (c, (some "N/A" : Cell)))) := by
  induction L generalizing df with
  | nil => simp
  | cons c t ih =>
    have hnd' : t.Nodup := (List.nodup_cons.mp hnd).2
    have hct : c ∉ t := (List.nodup_cons.mp hnd).1
    rw [List.foldl_cons, List.filter_cons]
    by_cases h : c ∈ df.columns
    · have hstep : ensureStep df c = df := by simp [ensureStep, h]
      rw [hstep, ih df hnd']
      simp [h]
    · have hstep : ensureStep df c = addColumn df c "N/A" := by simp [ensureStep, h]
      rw [hstep, ih (addColumn df c "N/A") hnd']
      have hcols : (addColumn df c "N/A").columns = df.columns ++ [c] := rfl
      have hfilter : t.filter (fun x => decide (x ∉ (addColumn df c "N/A").columns)) =
          t.filter (fun x => decide (x ∉ df.columns)) := by
        apply List.filter_congr
        intro x hx
        have hxc : x ≠ c := fun e => hct (e ▸ hx)
        simp [hcols, List.mem_append, hxc]
      rw [hfilter]
      have hrows : (addColumn df c "N/A").rows =
          df.rows.map (fun row => row ++ [(c, (some "N/A" : Cell))]) := rfl
      rw [hrows, List.map_map]
      have hdec : (decide (c ∉ df.columns)) = true := by simp [h]
      rw [hdec]
      simp only [if_true]
      apply List.map_congr_left
      intro row _
      simp [List.append_assoc]

theorem requiredColumns_nodup : requiredColumns.Nodup := by decide

theorem ensureColumns_columns (df : DataFrame) :
    (ensureColumns df).columns =
      df.columns ++ requiredColumns.filter (fun c => decide (c ∉ df.columns)) :=
  columns_foldl_ensure requiredColumns df requiredColumns_nodup

theorem ensureColumns_rows (df : DataFrame) :
    (ensureColumns df).rows =
      df.rows.map (fun row =>
        row ++ (requiredColumns.filter (fun c => decide (c ∉ df.columns))).map
          (fun c => (c, (some "N/A" : Cell)))) :=
  rows_foldl_ensure requiredColumns df requiredColumns_nodup

/-! ### The consolidated frame -/

theorem consolidate_columns (records : List Record) :
    (consolidate records).columns =
      "source" :: (observedCols records
          ++ requiredColumns.filter (fun c => decide (c ∉ observedCols records))).filter
        (fun c => decide (c ≠ "source")) := by
  unfold consolidate reorderSourceFirst selectColumns
  have h1 : (ensureColumns (mkDataFrame records)).columns =
      observedCols records
        ++ requiredColumns.filter (fun c => decide (c ∉ observedCols records)) :=
    ensureColumns_columns (mkDataFrame records)
  simpa using congrArg (fun l => "source" :: l.filter (fun c => decide (c ≠ "source"))) h1

/-! ### The dispatcher and the collection loop -/

theorem collectJobs_pair (a b : List Record) : collectJobs [a, b] = a ++ b := by
  unfold collectJobs
  simp only [List.foldl_cons, List.foldl_nil]
  have h1 : (if a.isEmpty then ([] : List Record) else [] ++ a) = a := by
    by_cases ha : a.isEmpty
    · simp [ha, List.isEmpty_iff.mp ha]
    · simp [ha]
  rw [h1]
  by_cases hb : b.isEmpty
  · simp [hb, List.isEmpty_iff.mp hb]
  · simp [hb]

theorem allJobsData_eq (o1 o2 : ProduceOutcome) (ord : Bool) :
    allJobsData o1 o2 ord =
      if ord then (scrape_portal o1 "Jora").1 ++ (scrape_portal o2 "Seek").1
      else (scrape_portal o2 "Seek").1 ++ (scrape_portal o1 "Jora").1 := by
  unfold allJobsData dispatchAll
  cases ord <;> simp [collectJobs_pair]

theorem allJobsData_length (o1 o2 : ProduceOutcome) (ord : Bool) :
    (allJobsData o1 o2 ord).length =
      ((scrape_portal o1 "Jora").1).length + ((scrape_portal o2 "Seek").1).length := by
  rw [allJobsData_eq]
  cases ord <;> simp [Nat.add_comm]

theorem rowCount_runMain (o1 o2 : ProduceOutcome) (ord : Bool) :
    rowCount (runMain o1 o2 ord) = (allJobsData o1 o2 ord).length := by
  unfold runMain
  cases hemp : (allJobsData o1 o2 ord).isEmpty
  · simp [hemp, rowCount, rows_length_consolidate]
  · simp [hemp, rowCount, List.isEmpty_iff.mp hemp]

theorem scrape_ok_length (b : List Record) (n : String) :
    ((scrape_portal (.ok b) n).1).length = b.length := by
  unfold scrape_portal
  by_cases hb : b.isEmpty
  · simp [hb, List.isEmpty_iff.mp hb]
  · simp [hb]

theorem mem_messages_of_jora_diag {d : String} {o1 o2 : ProduceOutcome} {ord : Bool}
    (h : d ∈ (scrape_portal o1 "Jora").2) : d ∈ (runMain o1 o2 ord).messages := by
  unfold runMain
  cases hemp : (allJobsData o1 o2 ord).isEmpty <;>
    simp only [hemp, Bool.false_eq_true, if_false, if_true, List.mem_append] <;>
    exact Or.inl (Or.inl h)

theorem mem_messages_of_seek_diag {d : String} {o1 o2 : ProduceOutcome} {ord : Bool}
    (h : d ∈ (scrape_portal o2 "Seek").2) : d ∈ (runMain o1 o2 ord).messages := by
  unfold runMain
  cases hemp : (allJobsData o1 o2 ord).isEmpty <;>
    simp only [hemp, Bool.false_eq_true, if_false, if_true, List.mem_append] <;>
    exact Or.inl (Or.inr h)

/-! ### Summary counts: `value_counts` sums to the number of non-NaN cells -/

theorem length_filterMap_id (l : List Cell) :
    (l.filterMap id).length = l.countP (fun v => v.isSome) := by
  induction l with
  | nil => rfl
  | cons a t ih => cases a <;> simp [List.filterMap_cons, List.countP_cons, ih]

theorem sum_ite_mem (keys : List String) :
    ∀ a : String, keys.Nodup → a ∈ keys →
      (keys.map (fun k => if a = k then 1 else 0)).sum = 1 := by
  induction keys with
  | nil =>
    intro a _ ha
    cases ha
  | cons k t ih =>
    intro a hnd ha
    rw [List.map_cons, List.sum_cons]
    by_cases hak : a = k
    · subst hak
      have hat : a ∉ t := (List.nodup_cons.mp hnd).1
      have hz : (t.map (fun k => if a = k then 1 else 0)).sum = 0 := by
        apply List.sum_eq_zero
        intro x hx
        obtain ⟨y, hy, rfl⟩ := List.mem_map.mp hx
        have hne : a ≠ y := fun e => hat (e ▸ hy)
        simp [hne]
      simp [hz]
    · have hat : a ∈ t := by
        cases List.mem_cons.mp ha with
        | inl h => exact absurd h hak
        | inr h => exact h
      rw [ih a (List.nodup_cons.mp hnd).2 hat]
      simp [hak]

theorem sum_counts_complete (l : List String) :
    ∀ keys : List String, keys.Nodup → (∀ v ∈ l, v ∈ keys) →
      (keys.map (fun k => l.count k)).sum = l.length := by
  induction l with
  | nil =>
    intro keys _ _
    apply List.sum_eq_zero
    intro x hx
    obtain ⟨k, _, rfl⟩ := List.mem_map.mp hx
    exact List.count_nil k
  | cons a t ih =>
    intro keys hnd hc
    have h1 : keys.map (fun k => (a :: t).count k) =
        keys.map (fun k => t.count k + if a = k then 1 else 0) := by
      apply List.map_congr_left
      intro k _
      rw [List.count_cons]
      congr 1
      by_cases hak : a = k <;> simp [hak]
    rw [h1, List.sum_map_add]
    rw [ih keys hnd (fun v hv => hc v (List.mem_cons_of_mem a hv))]
    rw [sum_ite_mem keys a hnd (hc a (List.mem_cons_self a t))]
    simp [List.length_cons]

theorem sumCounts_value_counts (df : DataFrame) (c : Field) :
    sumCounts (value_counts df c) = (columnValues df c).countP (fun v => v.isSome) := by
  unfold sumCounts value_counts
  rw [List.map_map]
  have h1 : (Prod.snd ∘ fun k => (k, ((columnValues df c).filterMap id).count k)) =
      fun k => ((columnValues df c).filterMap id).count k := rfl
  rw [h1]
  rw [sum_counts_complete ((columnValues df c).filterMap id)
        (((columnValues df c).filterMap id).foldl insertIfAbsent [])
        (nodup_foldl_insertIfAbsent List.nodup_nil)
        (fun v hv => mem_foldl_insertIfAbsent.mpr (Or.inr hv))]
  exact length_filterMap_id _

/-! ### Positional access to consolidated rows -/

theorem consolidate_rows_getElem (records : List Record) (i : Nat) (r : Record)
    (hi : records[i]? = some r) :
    (consolidate records).rows[i]? = some
      (("source" :: (ensureColumns (mkDataFrame records)).columns.filter
          (fun c => decide (c ≠ "source"))).map
        (fun c => (c, rowCell (mkRow (observedCols records) r
            ++ (requiredColumns.filter (fun c => decide (c ∉ observedCols records))).map
                (fun c => (c, (some "N/A" : Cell)))) c))) := by
  unfold consolidate reorderSourceFirst selectColumns
  rw [ensureColumns_rows]
  simp [List.getElem?_map, mkDataFrame, hi]

theorem mem_consolidate_columns (records : List Record) (f : Field)
    (h : f = "source" ∨ f ∈ observedCols records ∨ f ∈ requiredColumns) :
    f ∈ (consolidate records).columns := by
  rw [consolidate_columns]
  by_cases hs : f = "source"
  · exact hs ▸ List.mem_cons_self _ _
  · apply List.mem_cons_of_mem
    rw [List.mem_filter]
    refine ⟨?_, by simp [hs]⟩
    rcases h with h | h | h
    · exact absurd h hs
    · exact List.mem_append_left _ h
    · by_cases ho : f ∈ observedCols records
      · exact List.mem_append_left _ ho
      · apply List.mem_append_right
        rw [List.mem_filter]
        exact ⟨h, by simp [ho]⟩

/-! ### Settling the claims -/

/-- C1, counterexample: with a Jora record lacking `salary` and a Seek record
supplying it, the `salary` column exists, but the Jora row's cell is NaN
(`some none`), not the sentinel `"N/A"`: the loop at src/main.py lines 79-81
only fills columns absent from the whole frame, not per record. -/
theorem claim_C1_counterexample :
    cellAt (consolidate [[("title", "a"), ("source", "Jora")],
        [("title", "b"), ("salary", "s"), ("source", "Seek")]]) 0 "salary" ≠
      some (some "N/A") ∧
    cellAt (consolidate [[("title", "a"), ("source", "Jora")],
        [("title", "b"), ("salary", "s"), ("source", "Seek")]]) 0 "salary" = some none := by
  exact ⟨by decide, rfl⟩

/-- C1 (amended): every required field is present as a column of the
consolidated table, and a required field absent from every raw record is
filled with the sentinel `"N/A"` in every row; a field absent from one record
but present in another is left missing (NaN) in that row, not `"N/A"`. -/
theorem claim_C1_schema_completeness (records : List Record) (f : Field)
    (hf : f ∈ requiredColumns) :
    f ∈ (consolidate records).columns ∧
      ((∀ r ∈ records, r.lookup f = none) →
        ∀ row ∈ (consolidate records).rows, row.lookup f = some (some "N/A")) := by
  constructor
  · exact mem_consolidate_columns records f (Or.inr (Or.inr hf))
  · intro habs row hrow
    have hobs : f ∉ observedCols records := by
      rw [mem_observedCols]
      rintro ⟨r, hr, hfr⟩
      exact lookup_eq_none_iff.mp (habs r hr) hfr
    have hrow' : row ∈ (records.map (mkRow (observedCols records))).map
        ((fun row => ("source" :: (ensureColumns (mkDataFrame records)).columns.filter
            (fun c => decide (c ≠ "source"))).map (fun c => (c, rowCell row c))) ∘
          (fun row => row ++ (requiredColumns.filter
              (fun c => decide (c ∉ observedCols records))).map
            (fun c => (c, (some "N/A" : Cell))))) := by
      rw [← List.map_map]
      have hr : (consolidate records).rows =
          ((records.map (mkRow (observedCols records))).map
            (fun row => row ++ (requiredColumns.filter
                (fun c => decide (c ∉ observedCols records))).map
              (fun c => (c, (some "N/A" : Cell))))).map
            (fun row => ("source" :: (ensureColumns (mkDataFrame records)).columns.filter
                (fun c => decide (c ≠ "source"))).map (fun c => (c, rowCell row c))) := by
        show (reorderSourceFirst (ensureColumns (mkDataFrame records))).rows = _
        unfold reorderSourceFirst selectColumns
        rw [ensureColumns_rows]
        rfl
      rw [← hr]
      exact hrow
    obtain ⟨r0, hr0, rfl⟩ := List.mem_map.mp hrow'
    obtain ⟨r, _, rfl⟩ := List.mem_map.mp hr0
    have hfc : f ∈ ("source" :: (ensureColumns (mkDataFrame records)).columns.filter
        (fun c => decide (c ≠ "source"))) :=
      mem_consolidate_columns records f (Or.inr (Or.inr hf))
    show (List.map (fun c => (c, rowCell _ c)) _).lookup f = some (some "N/A")
    rw [lookup_map_fn hfc]
    congr 1
    unfold rowCell
    have h1 : (mkRow (observedCols records) r).lookup f = none := by
      unfold mkRow
      exact lookup_map_fn_none hobs
    rw [lookup_append_right _ h1]
    have hmemf : f ∈ requiredColumns.filter (fun c => decide (c ∉ observedCols records)) := by
      rw [List.mem_filter]
      exact ⟨hf, by simp [hobs]⟩
    rw [lookup_map_fn (g := fun _ => (some "N/A" : Cell)) hmemf]
    rfl

/-- C1 witness: instantiating the amended schema-completeness theorem at
`salary` and a single record lacking it. -/
theorem claim_C1_schema_completeness_witness :
    "salary" ∈ (consolidate [[("title", "a"), ("source", "Jora")]]).columns ∧
      ((∀ r ∈ [[("title", "a"), ("source", "Jora")]], List.lookup "salary" r = none) →
        ∀ row ∈ (consolidate [[("title", "a"), ("source", "Jora")]]).rows,
          row.lookup "salary" = some (some "N/A")) :=
  claim_C1_schema_completeness [[("title", "a"), ("source", "Jora")]] "salary" (by decide)

/-- C2: failure isolation — when one producer raises, `scrape_portal` returns
`[]` instead of re-raising, the error diagnostic naming the portal appears in
the run's messages, and the consolidated table has exactly the other
producer's record count, whichever producer failed and whichever future
completed first. -/
theorem claim_C2_failure_isolation (e : String) (b : List Record) (ord : Bool) :
    (scrape_portal (.err e) "Jora").1 = [] ∧
    ("Error during Jora scraping: " ++ e) ∈ (runMain (.err e) (.ok b) ord).messages ∧
    rowCount (runMain (.err e) (.ok b) ord) = b.length ∧
    ("Error during Seek scraping: " ++ e) ∈ (runMain (.ok b) (.err e) ord).messages ∧
    rowCount (runMain (.ok b) (.err e) ord) = b.length := by
  refine ⟨rfl, ?_, ?_, ?_, ?_⟩
  · apply mem_messages_of_jora_diag
    show ("Error during Jora scraping: " ++ e) ∈ ["Error during " ++ "Jora" ++ " scraping: " ++ e]
    have hs : ("Error during " ++ "Jora" ++ " scraping: " : String) =
        "Error during Jora scraping: " := rfl
    rw [hs]
    exact List.mem_singleton.mpr rfl
  · rw [rowCount_runMain, allJobsData_length, scrape_ok_length]
    simp [scrape_portal]
  · apply mem_messages_of_seek_diag
    show ("Error during Seek scraping: " ++ e) ∈ ["Error during " ++ "Seek" ++ " scraping: " ++ e]
    have hs : ("Error during " ++ "Seek" ++ " scraping: " : String) =
        "Error during Seek scraping: " := rfl
    rw [hs]
    exact List.mem_singleton.mpr rfl
  · rw [rowCount_runMain, allJobsData_length, scrape_ok_length]
    simp [scrape_portal]

/-- Shared count lemma: with both producers returning lists, the artifact has
exactly the sum of the two lengths, in either completion order. -/
theorem rowCount_ok_ok (a b : List Record) (ord : Bool) :
    rowCount (runMain (.ok a) (.ok b) ord) = a.length + b.length := by
  rw [rowCount_runMain, allJobsData_length, scrape_ok_length, scrape_ok_length]

/-- C3: union count — if producer A returns `a` records and producer B
returns `b` records with no overlap in identity, the consolidated table has
exactly `a + b` rows, in either completion order. -/
theorem claim_C3_union_count (a b : List Record) (ord : Bool)
    (hdisj : ∀ r ∈ a, r ∉ b) :
    rowCount (runMain (.ok a) (.ok b) ord) = a.length + b.length :=
  rowCount_ok_ok a b ord

/-- C3 witness: two disjoint singleton producer results give two rows. -/
theorem claim_C3_union_count_witness :
    (∀ r ∈ [[("title", "a")]], r ∉ ([[("title", "b")]] : List Record)) ∧
    rowCount (runMain (.ok [[("title", "a")]]) (.ok [[("title", "b")]]) true) = 2 :=
  ⟨by decide, claim_C3_union_count [[("title", "a")]] [[("title", "b")]] true (by decide)⟩

/-- C4: empty run — when both wrapped producers yield empty results, no
artifact is written, the summary is empty, and the "no data collected"
message is produced; the run terminates normally. -/
theorem claim_C4_empty_run (o1 o2 : ProduceOutcome) (ord : Bool)
    (h1 : (scrape_portal o1 "Jora").1 = []) (h2 : (scrape_portal o2 "Seek").1 = []) :
    (runMain o1 o2 ord).artifact = none ∧ (runMain o1 o2 ord).summary = [] ∧
      "No job data was collected from either portal." ∈ (runMain o1 o2 ord).messages := by
  have hdata : allJobsData o1 o2 ord = [] := by
    rw [allJobsData_eq, h1, h2]
    cases ord <;> simp
  refine ⟨?_, ?_, ?_⟩ <;> simp [runMain, hdata]

/-- C4 witness: a raising Jora producer and a Seek producer with no data give
an artifact-free run with the no-data message. -/
theorem claim_C4_empty_run_witness :
    (scrape_portal (.err "boom") "Jora").1 = [] ∧
    (scrape_portal (.ok []) "Seek").1 = [] ∧
    ((runMain (.err "boom") (.ok []) true).artifact = none ∧
      (runMain (.err "boom") (.ok []) true).summary = [] ∧
      "No job data was collected from either portal." ∈
        (runMain (.err "boom") (.ok []) true).messages) :=
  ⟨rfl, rfl, claim_C4_empty_run (.err "boom") (.ok []) true rfl rfl⟩

/-- C5, counterexample: with one record lacking `source` and one supplying
it, `value_counts` (pandas default `dropna=True`) excludes the NaN row, so
the summary counts sum to 1 while the table has 2 rows — the claim's
"including rows whose source field was absent" fails. -/
theorem claim_C5_counterexample :
    sumCounts (runMain (.ok [[("title", "a")]])
        (.ok [[("title", "b"), ("source", "Seek")]]) true).summary = 1 ∧
    rowCount (runMain (.ok [[("title", "a")]])
        (.ok [[("title", "b"), ("source", "Seek")]]) true) = 2 ∧
    (1 : Nat) ≠ 2 := by
  exact ⟨rfl, rfl, by decide⟩

/-- C5 (amended): for every run that emits an artifact, the sum of the
per-source counts in the summary equals the number of rows whose `source`
cell is non-missing in the consolidated table; rows whose `source` is NaN
(absent in the raw record while present in others) are excluded. -/
theorem claim_C5_count_agreement (o1 o2 : ProduceOutcome) (ord : Bool)
    (df : DataFrame) (h : (runMain o1 o2 ord).artifact = some df) :
    sumCounts (runMain o1 o2 ord).summary =
      (columnValues df "source").countP (fun v => v.isSome) := by
  unfold runMain at h ⊢
  cases hemp : (allJobsData o1 o2 ord).isEmpty
  · simp only [hemp, Bool.false_eq_true, if_false] at h ⊢
    have hdf : consolidate (allJobsData o1 o2 ord) = df := by
      simpa using h
    rw [← hdf]
    exact sumCounts_value_counts (consolidate (allJobsData o1 o2 ord)) "source"
  · simp [hemp] at h

/-- C5 witness: instantiating the amended count-agreement theorem on a
single-record run whose artifact is its consolidated frame. -/
theorem claim_C5_count_agreement_witness :
    sumCounts (runMain (.ok [[("source", "Jora")]]) (.ok []) true).summary =
      (columnValues (consolidate [[("source", "Jora")]]) "source").countP
        (fun v => v.isSome) :=
  claim_C5_count_agreement (.ok [[("source", "Jora")]]) (.ok []) true
    (consolidate [[("source", "Jora")]]) rfl

/-- C6, counterexample: a single record with fields observed in the order
`title, job_url, source` yields the header
`source, title, job_url, company, location, salary, description` — the
missing required fields are appended at the end, not interleaved at their
canonical positions, so the claimed fixed header fails. -/
theorem claim_C6_counterexample :
    (consolidate [[("title", "a"), ("job_url", "u"), ("source", "J")]]).columns =
      ["source", "title", "job_url", "company", "location", "salary", "description"] ∧
    (["source", "title", "job_url", "company", "location", "salary", "description"] :
        List String) ≠
      ["source", "title", "company", "location", "salary", "description", "job_url"] := by
  exact ⟨rfl, by decide⟩

/-- C6 (amended): the first column of the consolidated table is always
`source`; the remaining columns are the observed non-`source` fields in
first-occurrence order, followed by the required fields absent from every
record, in the order of the `required_columns` list. -/
theorem claim_C6_column_order (records : List Record) :
    (consolidate records).columns =
      "source" :: (observedCols records
          ++ requiredColumns.filter (fun c => decide (c ∉ observedCols records))).filter
        (fun c => decide (c ≠ "source")) ∧
    (consolidate records).columns.head? = some "source" :=
  ⟨consolidate_columns records, by rw [consolidate_columns records]; rfl⟩

/-- C7: extra-field preservation — any field of any input record (required or
extra) survives schema enforcement and column reordering: it is a column of
the consolidated table and the record's row holds its original value. -/
theorem claim_C7_extra_field_preservation (records : List Record) (i : Nat)
    (r : Record) (f : Field) (v : String) (hi : records[i]? = some r)
    (hv : r.lookup f = some v) :
    f ∈ (consolidate records).columns ∧ cellAt (consolidate records) i f = some (some v) := by
  have hfr : f ∈ recordFields r := by
    by_contra hmem
    rw [lookup_eq_none_iff.mpr hmem] at hv
    cases hv
  have hr : r ∈ records := List.getElem?_mem hi
  have hobs : f ∈ observedCols records := mem_observedCols.mpr ⟨r, hr, hfr⟩
  constructor
  · exact mem_consolidate_columns records f (Or.inr (Or.inl hobs))
  · unfold cellAt
    rw [consolidate_rows_getElem records i r hi]
    have hfc : f ∈ ("source" :: (ensureColumns (mkDataFrame records)).columns.filter
        (fun c => decide (c ≠ "source"))) :=
      mem_consolidate_columns records f (Or.inr (Or.inl hobs))
    show (List.map (fun c => (c, rowCell _ c)) _).lookup f = some (some v)
    rw [lookup_map_fn hfc]
    congr 1
    unfold rowCell
    have h1 : (mkRow (observedCols records) r).lookup f = some (r.lookup f) := by
      unfold mkRow
      exact lookup_map_fn hobs
    rw [hv] at h1
    rw [lookup_append_left h1]
    rfl

/-- C7 witness: an extra field `visa` with its value survives into the
consolidated table. -/
theorem claim_C7_extra_field_preservation_witness :
    ([[("title", "a"), ("visa", "482"), ("source", "Jora")]] : List Record)[0]? =
      some [("title", "a"), ("visa", "482"), ("source", "Jora")] ∧
    List.lookup "visa" [("title", "a"), ("visa", "482"), ("source", "Jora")] = some "482" ∧
    ("visa" ∈ (consolidate [[("title", "a"), ("visa", "482"), ("source", "Jora")]]).columns ∧
      cellAt (consolidate [[("title", "a"), ("visa", "482"), ("source", "Jora")]]) 0 "visa" =
        some (some "482")) :=
  ⟨rfl, rfl, claim_C7_extra_field_preservation
    [[("title", "a"), ("visa", "482"), ("source", "Jora")]] 0
    [("title", "a"), ("visa", "482"), ("source", "Jora")] "visa" "482" rfl rfl⟩

/-- C8: merge-after-join barrier — whichever future completes first, the
merger's input `all_jobs_data` is a permutation of the full concatenation of
both settled producer results (never a partial set), and the emitted row
count is the sum of both producers' result lengths. -/
theorem claim_C8_join_barrier (o1 o2 : ProduceOutcome) (ord : Bool) :
    List.Perm (allJobsData o1 o2 ord)
      ((scrape_portal o1 "Jora").1 ++ (scrape_portal o2 "Seek").1) ∧
    rowCount (runMain o1 o2 ord) =
      ((scrape_portal o1 "Jora").1).length + ((scrape_portal o2 "Seek").1).length := by
  constructor
  · rw [allJobsData_eq]
    cases ord
    · simp only [Bool.false_eq_true, if_false]
      exact List.perm_append_comm
    · simp only [if_true]
      exact List.Perm.refl _
  · rw [rowCount_runMain, allJobsData_length]

/-- C9: wrapper passthrough and falsy coercion — a nonempty result passes
through `scrape_portal` unchanged with a success line; an empty list or a
`None` return yields `[]` with the "failed or returned no data" diagnostic,
making an empty success indistinguishable from a caught failure in the
returned value. -/
theorem claim_C9_wrapper_passthrough (name e : String) (jobs : List Record)
    (h : jobs ≠ []) :
    (scrape_portal (.ok jobs) name).1 = jobs ∧
    (scrape_portal (.ok []) name).1 = [] ∧
    (scrape_portal .noneValue name).1 = [] ∧
    (" " ++ name ++ " scraping failed or returned no data") ∈
      (scrape_portal (.ok []) name).2 ∧
    (" " ++ name ++ " scraping failed or returned no data") ∈
      (scrape_portal .noneValue name).2 ∧
    (scrape_portal (.ok []) name).1 = (scrape_portal (.err e) name).1 := by
  have hne : jobs.isEmpty = false := by
    cases jobs with
    | nil => exact absurd rfl h
    | cons x t => rfl
  refine ⟨?_, rfl, rfl, ?_, ?_, rfl⟩
  · simp only [scrape_portal, hne]
    rfl
  · exact List.mem_singleton.mpr rfl
  · exact List.mem_singleton.mpr rfl

/-- C9 witness: instantiating the passthrough theorem on a nonempty result. -/
theorem claim_C9_wrapper_passthrough_witness :
    ([[("title", "t")]] : List Record) ≠ [] ∧
    ((scrape_portal (.ok [[("title", "t")]]) "Jora").1 = [[("title", "t")]] ∧
      (scrape_portal (.ok []) "Jora").1 = [] ∧
      (scrape_portal .noneValue "Jora").1 = [] ∧
      (" " ++ "Jora" ++ " scraping failed or returned no data") ∈
        (scrape_portal (.ok []) "Jora").2 ∧
      (" " ++ "Jora" ++ " scraping failed or returned no data") ∈
        (scrape_portal .noneValue "Jora").2 ∧
      (scrape_portal (.ok []) "Jora").1 = (scrape_portal (.err "x") "Jora").1) :=
  ⟨by decide, claim_C9_wrapper_passthrough "Jora" "x" [[("title", "t")]] (by decide)⟩

/-- C10: no deduplication — even with identical records within or across
producers, every record contributes one row: the consolidated row count
always equals the sum of the two returned sequence lengths. -/
theorem claim_C10_no_deduplication (a b : List Record) (ord : Bool) :
    rowCount (runMain (.ok a) (.ok b) ord) = a.length + b.length :=
  rowCount_ok_ok a b ord

end JobCrawler
